import Mathlib

set_option maxHeartbeats 1000000

/-! Verification development for the mdde_lite SQL analysis engine:
column-level lineage (lineage.py), determinism checks and tie-breaker
suggestion (determinism.py), and the optimizer diagnostic rules
(optimizer.py), shallowly embedded over the subset of sqlglot expression
nodes those modules inspect. -/

/-- Upper-casing of a string, character by character, modelling the Python
upper method and the sqlglot upper-cased names on the ASCII names involved
(the library toUpper is avoided only because it does not kernel-reduce). -/
def upperStr (s : String) : String := String.mk (s.data.map Char.toUpper)

/-- Lower-casing of a string, character by character (Python lower). -/
def lowerStr (s : String) : String := String.mk (s.data.map Char.toLower)

/-- Prefix test on character lists. -/
def listStarts (l pat : List Char) : Bool := pat == l.take pat.length

/-- Containment of a character list at any position. -/
def listContainsSub : List Char → List Char → Bool
  | [], pat => pat.isEmpty
  | c :: t, pat => listStarts (c :: t) pat || listContainsSub t pat

/-- Substring containment test, modelling the Python in operator on strings. -/
def strContains (s pat : String) : Bool :=
  listContainsSub s.data pat.data

/-- Suffix test, modelling the Python endswith/regex dot-star anchoring. -/
def strEndsWith (s suf : String) : Bool :=
  suf.data == s.data.drop (s.data.length - suf.data.length)

/-- Prefix test, modelling the Python startswith. -/
def strStartsWith (s pre : String) : Bool :=
  listStarts s.data pre.data

namespace MddeLite

/-! ## Lineage extractor (lineage.py) -/

/-- Aggregate node kinds: the sqlglot classes listed in the aggregate_types
tuple of lineage.py (Count, Sum, Avg, Min, Max). -/
inductive AggKind where
  | count | sum | avg | min | max
deriving DecidableEq, Repr

/-- SQL name of an aggregate node kind, for rendering expression text. -/
def aggName : AggKind → String
  | .count => "COUNT"
  | .sum => "SUM"
  | .avg => "AVG"
  | .min => "MIN"
  | .max => "MAX"

/-- Expression subtree handed to the lineage extractor: the subset of sqlglot
nodes that lineage.py inspects.  A column qualifier or table alias that is
absent is the empty string, matching sqlglot, whose accessors return an empty
string there and whose truthiness tests in lineage.py treat it as missing. -/
inductive LExpr where
  | column (name : String) (table : String)
  | star
  | literal (text : String)
  | aliasNode (inner : LExpr) (aliasName : String)
  | agg (kind : AggKind) (args : List LExpr)
  | func (name : String) (args : List LExpr)
  | binop (op : String) (lhs rhs : LExpr)
  | selectNode (items : List LExpr) (rest : List LExpr)
  | tableNode (name : String) (aliasName : String)

mutual

/-- All nodes of the subtree, the node itself first: models the node set
visited by Expression.find_all and Expression.find on this subset (sqlglot
walks breadth-first; no result proved below depends on traversal order). -/
def LExpr.allNodes : LExpr → List LExpr
  | .column n t => [.column n t]
  | .star => [.star]
  | .literal s => [.literal s]
  | .aliasNode e a => .aliasNode e a :: e.allNodes
  | .agg k args => .agg k args :: LExpr.allNodesList args
  | .func n args => .func n args :: LExpr.allNodesList args
  | .binop o l r => .binop o l r :: (l.allNodes ++ r.allNodes)
  | .selectNode items rest =>
      .selectNode items rest :: (LExpr.allNodesList items ++ LExpr.allNodesList rest)
  | .tableNode n a => [.tableNode n a]

/-- Concatenation of allNodes over a list of children. -/
def LExpr.allNodesList : List LExpr → List LExpr
  | [] => []
  | e :: es => e.allNodes ++ LExpr.allNodesList es

end

/-- Column occurrences (name, qualifier) in the subtree, as produced by
find_all on the Column class inside _extract_column_lineage. -/
def LExpr.allColumns (e : LExpr) : List (String × String) :=
  e.allNodes.filterMap fun n => match n with
    | .column name table => some (name, table)
    | _ => none

/-- Aggregate test, modelling lineage.py _is_aggregate: the node is one of
the aggregate classes or find locates one anywhere in the subtree (find
visits the node itself, so both disjuncts collapse to containment). -/
def LExpr.isAggregate (e : LExpr) : Bool :=
  e.allNodes.any fun n => match n with
    | .agg _ _ => true
    | _ => false

mutual

/-- Rendering of an expression back to SQL text, modelling the sql method
of sqlglot expressions on this subset; it only feeds the textual
expression field of lineage records. -/
def LExpr.sqlText : LExpr → String
  | .column n t => if t == "" then n else t ++ "." ++ n
  | .star => "*"
  | .literal s => s
  | .aliasNode e a => e.sqlText ++ " AS " ++ a
  | .agg k args => aggName k ++ "(" ++ String.intercalate ", " (LExpr.sqlTextList args) ++ ")"
  | .func n args => n ++ "(" ++ String.intercalate ", " (LExpr.sqlTextList args) ++ ")"
  | .binop o l r => l.sqlText ++ " " ++ o ++ " " ++ r.sqlText
  | .selectNode items _ => "SELECT " ++ String.intercalate ", " (LExpr.sqlTextList items)
  | .tableNode n a => if a == "" then n else n ++ " AS " ++ a

/-- Rendering of a list of children. -/
def LExpr.sqlTextList : List LExpr → List String
  | [] => []
  | e :: es => e.sqlText :: LExpr.sqlTextList es

end

/-- Table alias map: association list built by insertion order. -/
abbrev AliasMap := List (String × String)

/-- Dictionary lookup where a later insertion of the same key wins, modelling
Python dict assignment as used by _build_alias_map. -/
def dictGet (m : AliasMap) (k : String) : Option String :=
  (m.reverse.find? (fun p => p.1 == k)).map (fun p => p.2)

/-- Alias map of a parsed tree, modelling lineage.py _build_alias_map: walk
all Table nodes; an aliased table maps its alias to its name, an unaliased
one maps its name to itself. -/
def buildAliasMap (parsed : LExpr) : AliasMap :=
  parsed.allNodes.foldl (fun m n => match n with
    | .tableNode name al => if al != "" then m ++ [(al, name)] else m ++ [(name, name)]
    | _ => m) []

/-- Resolution of a column qualifier through the alias map, as done inline in
_extract_column_lineage: the mapped name when the qualifier is a known alias,
the qualifier itself otherwise, and unknown when no qualifier is present. -/
def resolveTable (aliasMap : AliasMap) (table : String) : String :=
  if table != "" then
    match dictGet aliasMap table with
    | some t => t
    | none => table
  else "unknown"

/-- One pass appending each column name and, in the same step, its resolved
table, modelling the source-column loops of the aggregation and derived
branches of _extract_column_lineage. -/
def collectSourceRefs (aliasMap : AliasMap) (cols : List (String × String)) :
    List String × List String :=
  cols.foldl (fun acc c => (acc.1 ++ [c.1], acc.2 ++ [resolveTable aliasMap c.2])) ([], [])

/-- Lineage record for one select-item (the ColumnLineage dataclass of
lineage.py; its own comment lists the produced mapping_type values as
direct, rename, derived, aggregation, constant). -/
structure ColumnLineage where
  target_column : String
  target_alias : Option String
  source_columns : List String
  source_tables : List String
  mapping_type : String
  expression : Option String
deriving DecidableEq, Repr

/-- Python string-or: a non-empty string wins over the fallback, as in the
target_alias or default expressions of _extract_column_lineage. -/
def pyOr (o : Option String) (dflt : String) : String :=
  match o with
  | none => dflt
  | some a => if a == "" then dflt else a

/-- Body of _extract_column_lineage after the alias unwrap: classify the
inner expression, branch for branch in source order, namely Column, then
Star, then aggregate-containing, then Literal, else derived. -/
def classifyInner (target_alias : Option String) (inner : LExpr) (aliasMap : AliasMap) :
    ColumnLineage :=
  match inner with
  | .column name table =>
      let mt :=
        match target_alias with
        | some a => if a != "" && a != name then "rename" else "direct"
        | none => "direct"
      { target_column := name, target_alias := target_alias,
             source_columns := [name],
             source_tables := [resolveTable aliasMap table],
             mapping_type := mt, expression := none }
  | .star =>
      { target_column := "*", target_alias := target_alias,
             source_columns := ["*"], source_tables := ["all"],
             mapping_type := "direct", expression := none }
  | _ =>
      if inner.isAggregate then
        let refs := collectSourceRefs aliasMap inner.allColumns
        { target_column := pyOr target_alias "aggregate",
               target_alias := target_alias,
               source_columns := refs.1, source_tables := refs.2,
               mapping_type := "aggregation", expression := some inner.sqlText }
      else
        match inner with
        | .literal _ =>
            { target_column := pyOr target_alias "constant",
                   target_alias := target_alias,
                   source_columns := [], source_tables := [],
                   mapping_type := "constant", expression := some inner.sqlText }
        | _ =>
            let refs := collectSourceRefs aliasMap inner.allColumns
            { target_column := pyOr target_alias "expression",
                   target_alias := target_alias,
                   source_columns := refs.1, source_tables := refs.2,
                   mapping_type := "derived", expression := some inner.sqlText }

/-- The record _extract_column_lineage builds for a select expression: an
Alias node contributes its alias as target_alias and is unwrapped, any
other node is classified directly with no target alias. -/
def lineageRecord (expr : LExpr) (aliasMap : AliasMap) : ColumnLineage :=
  match expr with
  | .aliasNode e a => classifyInner (some a) e aliasMap
  | e => classifyInner none e aliasMap

/-- Classifier for a single select expression, modelling
lineage.py _extract_column_lineage.  The Optional return type of the source
signature is kept, but the source body always ends in an unconditional
return of a record, so the result is always some. -/
def extractColumnLineage (expr : LExpr) (aliasMap : AliasMap) : Option ColumnLineage :=
  some (lineageRecord expr aliasMap)

/-- Result of the external parser sqlglot.parse_one: a tree, or the message
of the exception it raised. -/
abbrev ParseResult (α : Type) := Except String α

/-- First Select node of the tree, modelling find on the Select class. -/
def findSelect (parsed : LExpr) : Option LExpr :=
  parsed.allNodes.find? fun n => match n with
    | .selectNode _ _ => true
    | _ => false

/-- Select-item list of a node (the expressions arg of a Select). -/
def selectItems : LExpr → List LExpr
  | .selectNode items _ => items
  | _ => []

/-- Column-level lineage of a statement, modelling lineage.py
extract_lineage: empty on parse failure, empty when no Select is found,
otherwise the loop appends the classifier result for each select-item of
the first Select, in order, skipping None results. -/
def extract_lineage (pr : ParseResult LExpr) : List ColumnLineage :=
  match pr with
  | .error _ => []
  | .ok parsed =>
      let aliasMap := buildAliasMap parsed
      match findSelect parsed with
      | none => []
      | some sel =>
          (selectItems sel).foldl (fun acc e =>
            match extractColumnLineage e aliasMap with
            | some r => acc ++ [r]
            | none => acc) []

/-! ## Determinism checker (determinism.py) -/

/-- Determinism finding (the DeterminismIssue dataclass of determinism.py). -/
structure DeterminismIssue where
  issue_type : String
  severity : String
  message : String
  location : String
  suggestion : String
  tie_breaker_columns : List String
  dq_check_sql : Option String
deriving DecidableEq, Repr

/-- Window functions that require ORDER BY: the RANKING_FUNCTIONS set. -/
def RANKING_FUNCTIONS : List String := ["ROW_NUMBER", "RANK", "DENSE_RANK", "NTILE"]

/-- Window functions that require ORDER BY: the NAVIGATION_FUNCTIONS set. -/
def NAVIGATION_FUNCTIONS : List String :=
  ["LAG", "LEAD", "FIRST_VALUE", "LAST_VALUE", "NTH_VALUE"]

/-- Union of the two window-function sets (ALL_ORDERED_WINDOW_FUNCTIONS). -/
def ALL_ORDERED_WINDOW_FUNCTIONS : List String :=
  RANKING_FUNCTIONS ++ NAVIGATION_FUNCTIONS

/-- Inherently non-deterministic functions (the VOLATILE_FUNCTIONS set). -/
def VOLATILE_FUNCTIONS : List String :=
  ["RANDOM", "RAND",
   "UUID", "GEN_RANDOM_UUID", "NEWID", "UUID_GENERATE_V4",
   "NOW", "CURRENT_TIMESTAMP", "SYSDATE", "GETDATE", "SYSTIMESTAMP",
   "CURRENT_DATE", "CURRENT_TIME"]

/-- Expression subtree handed to the determinism checker: the subset of
sqlglot nodes that determinism.py inspects.  A Window carries its function
node, its partition-by expressions and, when an ORDER BY is present in the
window spec, the order expressions; a Select carries its children together
with presence flags for its limit, order and distinct args, which are the
only facts about them the checker reads. -/
inductive DExpr where
  | column (name : String)
  | star
  | literal (text : String)
  | tableNode (name : String)
  | func (name : String) (isAnon : Bool) (args : List DExpr)
  | window (funcE : DExpr) (partitionBy : List DExpr) (orderBy : Option (List DExpr))
  | ordered (inner : DExpr)
  | subquery (inner : DExpr)
  | selectNode (children : List DExpr) (hasLimit hasOrder hasDistinct : Bool)

mutual

/-- All nodes of the subtree, the node itself first; models the node set
visited by find_all on this subset (traversal order never matters below). -/
def DExpr.allNodes : DExpr → List DExpr
  | .column n => [.column n]
  | .star => [.star]
  | .literal s => [.literal s]
  | .tableNode n => [.tableNode n]
  | .func n a args => .func n a args :: DExpr.allNodesList args
  | .window f pb ob =>
      .window f pb ob ::
        (f.allNodes ++ DExpr.allNodesList pb ++
          (match ob with
           | none => []
           | some obs => DExpr.allNodesList obs))
  | .ordered i => .ordered i :: i.allNodes
  | .subquery i => .subquery i :: i.allNodes
  | .selectNode cs l o d => .selectNode cs l o d :: DExpr.allNodesList cs

/-- Concatenation of allNodes over a list of children. -/
def DExpr.allNodesList : List DExpr → List DExpr
  | [] => []
  | e :: es => e.allNodes ++ DExpr.allNodesList es

end

/-- All Window nodes of the tree (find_all on the Window class). -/
def findAllWindows (parsed : DExpr) : List DExpr :=
  parsed.allNodes.filter fun n => match n with
    | .window _ _ _ => true
    | _ => false

/-- All Select nodes of the tree (find_all on the Select class). -/
def findAllSelects (parsed : DExpr) : List DExpr :=
  parsed.allNodes.filter fun n => match n with
    | .selectNode _ _ _ _ => true
    | _ => false

/-- All function-call nodes of the tree (find_all on the Func class). -/
def findAllFuncs (parsed : DExpr) : List DExpr :=
  parsed.allNodes.filter fun n => match n with
    | .func _ _ _ => true
    | _ => false

mutual

/-- Rendering back to SQL-like text, modelling str on a sqlglot node; it only
feeds the message and check strings built by the determinism checker. -/
def DExpr.sqlText : DExpr → String
  | .column n => n
  | .star => "*"
  | .literal s => s
  | .tableNode n => n
  | .func n _ args => n ++ "(" ++ String.intercalate ", " (DExpr.sqlTextList args) ++ ")"
  | .window f _ _ => f.sqlText ++ " OVER (...)"
  | .ordered i => i.sqlText
  | .subquery i => "(" ++ i.sqlText ++ ")"
  | .selectNode _ _ _ _ => "SELECT ..."

/-- Rendering of a list of children. -/
def DExpr.sqlTextList : List DExpr → List String
  | [] => []
  | e :: es => e.sqlText :: DExpr.sqlTextList es

end

/-- Function name extraction, modelling _get_function_name: sqlglot function
nodes report their canonical upper-cased sql_name; on other nodes the
fallback attribute chain upper-cases the node key (its class name). -/
def getFunctionName : DExpr → String
  | .func n _ _ => upperStr n
  | .column _ => "COLUMN"
  | .star => "STAR"
  | .literal _ => "LITERAL"
  | .tableNode _ => "TABLE"
  | .window _ _ _ => "WINDOW"
  | .ordered _ => "ORDERED"
  | .subquery _ => "SUBQUERY"
  | .selectNode _ _ _ _ => "SELECT"

/-- Column names of an ORDER BY clause (_extract_order_columns): unwrap an
Ordered item to its inner expression, then take the column name, or the
rendered text of a non-Column item. -/
def extractOrderColumns (items : List DExpr) : List String :=
  items.map fun e =>
    let col := match e with
               | .ordered i => i
               | c => c
    match col with
    | .column n => n
    | c => c.sqlText

/-- Column names of a PARTITION BY clause (_extract_partition_columns). -/
def extractPartitionColumns (pb : List DExpr) : List String :=
  pb.map fun e => match e with
    | .column n => n
    | c => c.sqlText

/-- Data-quality check generated for a window with no ORDER BY
(_generate_dq_check): group by the partition columns, or 1 when there are
none, and flag groups with more than one row. -/
def generateDqCheck (funcName : String) (pb : List DExpr) : String :=
  let partitionCols := extractPartitionColumns pb
  let partitionStr := if partitionCols.isEmpty then "1"
                      else String.intercalate ", " partitionCols
  "-- DQ Check: Detect potential " ++ funcName ++ " non-determinism\n" ++
  "-- If this returns rows, the ordering is not unique\n" ++
  "SELECT " ++ partitionStr ++ ", COUNT(*) as duplicate_count\n" ++
  "FROM your_table\n" ++
  "GROUP BY " ++ partitionStr ++ "\n" ++
  "HAVING COUNT(*) > 1"

/-- Data-quality check generated for a ranking function with an ORDER BY
(_generate_uniqueness_check): count duplicate partition+order combinations. -/
def generateUniquenessCheck (funcName : String)
    (partitionCols orderCols : List String) : String :=
  let allCols := partitionCols ++ orderCols
  let colsStr := if allCols.isEmpty then "*" else String.intercalate ", " allCols
  "-- DQ Check: Verify ORDER BY uniqueness for " ++ funcName ++ "\n" ++
  "-- If this returns > 0, ties exist that make " ++ funcName ++ " non-deterministic\n" ++
  "SELECT COUNT(*) as tie_count\n" ++
  "FROM (\n" ++
  "    SELECT " ++ colsStr ++ ", COUNT(*) as cnt\n" ++
  "    FROM your_table\n" ++
  "    GROUP BY " ++ colsStr ++ "\n" ++
  "    HAVING COUNT(*) > 1\n" ++
  ") ties"

/-- Loop body of _check_window_functions for one found Window node: skip
functions outside the two sets; with no ORDER BY emit one error whose type
depends on the function class; with an ORDER BY emit the non-unique-order
warning for ranking functions and nothing for navigation functions. -/
def windowIssues : DExpr → List DeterminismIssue
  | .window f pb ob =>
      let fn := getFunctionName f
      if !(ALL_ORDERED_WINDOW_FUNCTIONS.contains fn) then []
      else
        match ob with
        | none =>
            let issueType :=
              if NAVIGATION_FUNCTIONS.contains fn then
                (if fn == "FIRST_VALUE" || fn == "LAST_VALUE" then
                   "FIRST_LAST_NO_ORDER"
                 else "LAG_LEAD_NO_ORDER")
              else "WINDOW_NO_ORDER"
            [{ issue_type := issueType, severity := "error",
               message := fn ++ "() without ORDER BY - results are non-deterministic",
               location := fn ++ " window function",
               suggestion := "Add ORDER BY clause with unique columns to " ++ fn ++ "()",
               tie_breaker_columns := ["primary_key", "created_at", "row_id"],
               dq_check_sql := some (generateDqCheck fn pb) }]
        | some obItems =>
            if RANKING_FUNCTIONS.contains fn then
              let orderCols := extractOrderColumns obItems
              let partitionCols := extractPartitionColumns pb
              [{ issue_type := "WINDOW_NON_UNIQUE_ORDER", severity := "warning",
                 message := fn ++ "() ORDER BY (" ++ String.intercalate ", " orderCols ++
                            ") may not be unique within partition",
                 location := fn ++ " window function",
                 suggestion := "Ensure ORDER BY includes a unique column (PK or tie-breaker)",
                 tie_breaker_columns := ["primary_key", "_source_row_id", "created_at"],
                 dq_check_sql := some (generateUniquenessCheck fn partitionCols orderCols) }]
            else []
  | _ => []

/-- Window-function determinism pass (_check_window_functions): visit every
Window node found anywhere in the tree and append its issues. -/
def check_window_functions (parsed : DExpr) : List DeterminismIssue :=
  (findAllWindows parsed).foldl (fun acc w => acc ++ windowIssues w) []

/-- The issue emitted for a Select with LIMIT and no ORDER BY. -/
def limitNoOrderIssue : DeterminismIssue :=
  { issue_type := "LIMIT_NO_ORDER", severity := "error",
    message := "LIMIT/TOP without ORDER BY - returns arbitrary rows",
    location := "SELECT with LIMIT",
    suggestion := "Add ORDER BY clause to ensure consistent row selection",
    tie_breaker_columns := ["primary_key", "created_at"],
    dq_check_sql := none }

/-- The condition of the LIMIT pass on one Select node: a limit arg is
present and no order arg is. -/
def limitSelPred : DExpr → Bool
  | .selectNode _ l o _ => l && !o
  | _ => false

/-- Loop body of the LIMIT pass for one found node. -/
def limitStep (acc : List DeterminismIssue) (s : DExpr) : List DeterminismIssue :=
  match s with
  | .selectNode _ l o _ => if l && !o then acc ++ [limitNoOrderIssue] else acc
  | _ => acc

/-- LIMIT pass (_check_limit_without_order): for every Select node found
anywhere in the tree, emit the error when it has a limit arg and no order
arg. -/
def check_limit_without_order (parsed : DExpr) : List DeterminismIssue :=
  (findAllSelects parsed).foldl limitStep []

/-- Severity and message chosen per volatile function class in
_check_volatile_functions. -/
def volatileIssue (fn : String) : DeterminismIssue :=
  let sm : String × String :=
    if fn == "RANDOM" || fn == "RAND" then
      ("error", fn ++ "() produces different values each execution")
    else if ["UUID", "GEN_RANDOM_UUID", "NEWID", "UUID_GENERATE_V4"].contains fn then
      ("warning", fn ++ "() generates new UUIDs each execution")
    else
      ("info", fn ++ "() returns current time - varies between runs")
  { issue_type := "VOLATILE_FUNCTION", severity := sm.1, message := sm.2,
    location := fn ++ "() function call",
    suggestion := "For regression testing, consider parameterizing time-dependent values",
    tie_breaker_columns := [], dq_check_sql := none }

/-- Volatile-function pass (_check_volatile_functions): every function call
whose name is volatile yields one issue, deduplicated by name through the
seen set; an Anonymous function falls back to its raw name, upper-cased, or
the literal ANONYMOUS when it has none. -/
def check_volatile_functions (parsed : DExpr) : List DeterminismIssue :=
  ((findAllFuncs parsed).foldl (fun acc f =>
      let fn0 := getFunctionName f
      let fn := match f with
                | .func n true _ => if n == "" then "ANONYMOUS" else upperStr n
                | _ => fn0
      if VOLATILE_FUNCTIONS.contains fn && !(acc.1.contains fn) then
        (acc.1 ++ [fn], acc.2 ++ [volatileIssue fn])
      else acc)
    (([] : List String), ([] : List DeterminismIssue))).2

/-- DISTINCT pass (_check_distinct_determinism): a distinct Select with a
limit and no order yields one warning. -/
def check_distinct_determinism (parsed : DExpr) : List DeterminismIssue :=
  (findAllSelects parsed).foldl (fun acc s =>
    match s with
    | .selectNode _ l o d =>
        if d && (l && !o) then
          acc ++ [{ issue_type := "DISTINCT_NO_ORDER", severity := "warning",
                    message := "SELECT DISTINCT with LIMIT but no ORDER BY - arbitrary row selection",
                    location := "SELECT DISTINCT with LIMIT",
                    suggestion := "Add ORDER BY to ensure consistent row selection",
                    tie_breaker_columns := [], dq_check_sql := none }]
        else acc
    | _ => acc) []

/-- The single issue returned by check_determinism on a parse failure. -/
def parseErrorIssue (msg : String) : DeterminismIssue :=
  { issue_type := "PARSE_ERROR", severity := "error", message := msg,
    location := "SQL", suggestion := "Fix syntax error",
    tie_breaker_columns := [], dq_check_sql := none }

/-- Determinism analysis of a statement, modelling check_determinism: a
parse failure yields exactly the one PARSE_ERROR issue carrying the raised
message; otherwise the four passes run in order over the same tree. -/
def check_determinism (pr : ParseResult DExpr) : List DeterminismIssue :=
  match pr with
  | .error e => [parseErrorIssue e]
  | .ok parsed =>
      check_window_functions parsed ++
      check_limit_without_order parsed ++
      check_volatile_functions parsed ++
      check_distinct_determinism parsed

/-! ## Tie-breaker suggester (determinism.py suggest_tie_breakers) -/

/-- One tie-breaker regex: every entry of TIE_BREAKER_PATTERNS is either of
the shape dot-star SUFFIX dollar, an ends-with test, or of the shape caret
NAME dollar, an exact-name test (candidates are taken newline-free, so the
regex subtleties around newlines do not arise). -/
inductive TBPattern where
  | endsWith (suffix : String)
  | exact (s : String)
deriving DecidableEq, Repr

/-- The fixed tie-breaker priority list TIE_BREAKER_PATTERNS, in source
order, most specific first. -/
def TIE_BREAKER_PATTERNS : List TBPattern :=
  [ .endsWith "_source_row_id",
    .endsWith "_row_id",
    .exact "row_id",
    .endsWith "_load_timestamp",
    .endsWith "_load_ts",
    .exact "load_ts",
    .exact "created_at",
    .endsWith "_file_row_number",
    .exact "surrogate_key",
    .exact "sk",
    .endsWith "_sk",
    .exact "id",
    .endsWith "_id" ]

/-- Anchored match of one pattern against a candidate, with IGNORECASE
modelled by lower-casing the candidate (the pattern texts are lower case). -/
def patMatch (p : TBPattern) (col : String) : Bool :=
  match p with
  | .endsWith suf => strEndsWith (lowerStr col) suf
  | .exact s => lowerStr col == s

/-- Tie-breaker suggestion, modelling suggest_tie_breakers: iterate the
patterns in priority order and, for each pattern, append every matching
candidate not already selected. -/
def suggest_tie_breakers (column_names : List String) : List String :=
  TIE_BREAKER_PATTERNS.foldl (fun suggestions p =>
    column_names.foldl (fun sugg col =>
      if patMatch p col && !(sugg.contains col) then sugg ++ [col] else sugg)
      suggestions) []

/-! ## Optimizer diagnostic rules (optimizer.py) -/

namespace Opt

/-- SQL quality finding (the SQLDiagnostic class of optimizer.py, with its
default severity warning and default None line number and suggestion). -/
structure SQLDiagnostic where
  diagnostic_type : String
  message : String
  severity : String := "warning"
  line_number : Option Nat := none
  suggestion : Option String := none
deriving DecidableEq, Repr

/-- Expression subtree handed to the optimizer rules: the subset of sqlglot
nodes the fifteen rules inspect.  A table alias that is absent is the empty
string, as in sqlglot; a Select carries its item list, from clause, join
list, where clause and order clause, plus presence flags for its group-by
and limit args (only presence is read for those) and its distinct flag; a
function node carries its key, its aggregate-class flag (Count, Sum, Avg,
Min or Max) and its expressions arg list. -/
inductive OExpr where
  | column (name : String)
  | star
  | lit (value : String) (isString : Bool) (isInt : Bool)
  | aliasN (inner : OExpr) (aliasName : String)
  | table (name : String) (aliasName : String)
  | func (key : String) (isAgg : Bool) (args : List OExpr)
  | orN (lhs rhs : OExpr)
  | andN (lhs rhs : OExpr)
  | bin (op : String) (lhs rhs : OExpr)
  | like (this pattern : OExpr)
  | whereN (cond : OExpr)
  | order (items : List OExpr)
  | ordered (inner : OExpr)
  | fromN (exprs : List OExpr)
  | join (this : OExpr) (onC : Option OExpr) (usingC : Bool) (kind : String)
  | subq (inner : OExpr)
  | union (lhs rhs : OExpr)
  | selectN (items : List OExpr) (fromC : Option OExpr) (joins : List OExpr)
      (whereC : Option OExpr) (hasGroup : Bool) (orderC : Option OExpr)
      (hasLimit : Bool) (distinct : Bool)

mutual

/-- All nodes of the subtree, the node itself first; models the node set
visited by find_all and find on this subset (no result proved below depends
on the traversal order). -/
def OExpr.allNodes : OExpr → List OExpr
  | .column n => [.column n]
  | .star => [.star]
  | .lit v s i => [.lit v s i]
  | .aliasN e a => .aliasN e a :: e.allNodes
  | .table n a => [.table n a]
  | .func k g args => .func k g args :: OExpr.allNodesList args
  | .orN l r => .orN l r :: (l.allNodes ++ r.allNodes)
  | .andN l r => .andN l r :: (l.allNodes ++ r.allNodes)
  | .bin o l r => .bin o l r :: (l.allNodes ++ r.allNodes)
  | .like t p => .like t p :: (t.allNodes ++ p.allNodes)
  | .whereN c => .whereN c :: c.allNodes
  | .order items => .order items :: OExpr.allNodesList items
  | .ordered i => .ordered i :: i.allNodes
  | .fromN es => .fromN es :: OExpr.allNodesList es
  | .join t onC u k =>
      .join t onC u k ::
        (t.allNodes ++ (match onC with
                        | none => []
                        | some c => c.allNodes))
  | .subq i => .subq i :: i.allNodes
  | .union l r => .union l r :: (l.allNodes ++ r.allNodes)
  | .selectN items fr js wh g oc lim d =>
      .selectN items fr js wh g oc lim d ::
        (OExpr.allNodesList items ++
         (match fr with
          | none => []
          | some c => c.allNodes) ++
         OExpr.allNodesList js ++
         (match wh with
          | none => []
          | some c => c.allNodes) ++
         (match oc with
          | none => []
          | some c => c.allNodes))

/-- Concatenation of allNodes over a list of children. -/
def OExpr.allNodesList : List OExpr → List OExpr
  | [] => []
  | e :: es => e.allNodes ++ OExpr.allNodesList es

end

mutual

/-- Rendering back to SQL text on this subset, modelling the sql method; the
rules read it only for the two textual tests: a comma in the rendered FROM
clause and the 1=1 patterns in the rendered WHERE clause. -/
def OExpr.sqlText : OExpr → String
  | .column n => n
  | .star => "*"
  | .lit v s _ => if s then "\x27" ++ v ++ "\x27" else v
  | .aliasN e a => e.sqlText ++ " AS " ++ a
  | .table n a => if a == "" then n else n ++ " AS " ++ a
  | .func k _ args => upperStr k ++ "(" ++ String.intercalate ", " (OExpr.sqlTextList args) ++ ")"
  | .orN l r => l.sqlText ++ " OR " ++ r.sqlText
  | .andN l r => l.sqlText ++ " AND " ++ r.sqlText
  | .bin o l r => l.sqlText ++ " " ++ o ++ " " ++ r.sqlText
  | .like t p => t.sqlText ++ " LIKE " ++ p.sqlText
  | .whereN c => "WHERE " ++ c.sqlText
  | .order items => "ORDER BY " ++ String.intercalate ", " (OExpr.sqlTextList items)
  | .ordered i => i.sqlText
  | .fromN es => "FROM " ++ String.intercalate ", " (OExpr.sqlTextList es)
  | .join t onC _ k =>
      (if k == "" then "JOIN " else k ++ " JOIN ") ++ t.sqlText ++
        (match onC with
         | none => ""
         | some c => " ON " ++ c.sqlText)
  | .subq i => "(" ++ i.sqlText ++ ")"
  | .union l r => l.sqlText ++ " UNION " ++ r.sqlText
  | .selectN items _ _ _ _ _ _ _ =>
      "SELECT " ++ String.intercalate ", " (OExpr.sqlTextList items)

/-- Rendering of a list of children. -/
def OExpr.sqlTextList : List OExpr → List String
  | [] => []
  | e :: es => e.sqlText :: OExpr.sqlTextList es

end

/-- Star-node test. -/
def isStar : OExpr → Bool
  | .star => true
  | _ => false

/-- Column-node test. -/
def isColumn : OExpr → Bool
  | .column _ => true
  | _ => false

/-- Or-node test. -/
def isOr : OExpr → Bool
  | .orN _ _ => true
  | _ => false

/-- All Star nodes of the tree. -/
def findAllStars (parsed : OExpr) : List OExpr := parsed.allNodes.filter isStar

/-- All Table nodes of the tree. -/
def findAllTables (parsed : OExpr) : List OExpr :=
  parsed.allNodes.filter fun n => match n with
    | .table _ _ => true
    | _ => false

/-- All Join nodes of the tree. -/
def findAllJoins (parsed : OExpr) : List OExpr :=
  parsed.allNodes.filter fun n => match n with
    | .join _ _ _ _ => true
    | _ => false

/-- All Order nodes of the tree. -/
def findAllOrders (parsed : OExpr) : List OExpr :=
  parsed.allNodes.filter fun n => match n with
    | .order _ => true
    | _ => false

/-- All Select nodes of the tree. -/
def findAllSelectsO (parsed : OExpr) : List OExpr :=
  parsed.allNodes.filter fun n => match n with
    | .selectN _ _ _ _ _ _ _ _ => true
    | _ => false

/-- All Union nodes of the tree. -/
def findAllUnions (parsed : OExpr) : List OExpr :=
  parsed.allNodes.filter fun n => match n with
    | .union _ _ => true
    | _ => false

/-- All Like nodes of the tree. -/
def findAllLikes (parsed : OExpr) : List OExpr :=
  parsed.allNodes.filter fun n => match n with
    | .like _ _ => true
    | _ => false

/-- All Literal nodes of the tree. -/
def findAllLiterals (parsed : OExpr) : List OExpr :=
  parsed.allNodes.filter fun n => match n with
    | .lit _ _ _ => true
    | _ => false

/-- All function-call nodes of the tree (find_all on the Func class, which
covers the aggregate classes as well). -/
def findAllFuncsO (parsed : OExpr) : List OExpr :=
  parsed.allNodes.filter fun n => match n with
    | .func _ _ _ => true
    | _ => false

/-- All Or nodes of a subtree, the node itself included. -/
def findAllOrs (e : OExpr) : List OExpr := e.allNodes.filter isOr

/-- First Select node of the tree (find on the Select class). -/
def findFirstSelect (parsed : OExpr) : Option OExpr :=
  parsed.allNodes.find? fun n => match n with
    | .selectN _ _ _ _ _ _ _ _ => true
    | _ => false

/-- First From node of the tree (find on the From class). -/
def findFirstFrom (parsed : OExpr) : Option OExpr :=
  parsed.allNodes.find? fun n => match n with
    | .fromN _ => true
    | _ => false

/-- First Where node of the tree (find on the Where class). -/
def findFirstWhere (parsed : OExpr) : Option OExpr :=
  parsed.allNodes.find? fun n => match n with
    | .whereN _ => true
    | _ => false

/-- True when an aggregate-class node occurs in the subtree, the node itself
included; models the expr.find tests over the aggregate_funcs tuple. -/
def containsAgg (e : OExpr) : Bool :=
  e.allNodes.any fun n => match n with
    | .func _ g _ => g
    | _ => false

/-- The name attribute of a node, as read for the cartesian-join message. -/
def OExpr.nameOf : OExpr → String
  | .table n _ => n
  | .column n => n
  | _ => ""

/-- Rule 1, check_select_star: one warning per Star node. -/
def check_select_star (parsed : OExpr) : List SQLDiagnostic :=
  (findAllStars parsed).foldl (fun acc _ =>
    acc ++ [{ diagnostic_type := "SELECT_STAR",
              message := "SELECT * detected - explicit column list recommended",
              severity := "warning",
              suggestion := some "Replace * with explicit column names for better maintainability and performance" }]) []

/-- Rule 2, check_missing_alias: with more than one table, one info finding
per alias-less table.  Building the suggestion text indexes the first
character of the table name, which raises IndexError on an empty name; the
Except result models that exception. -/
def check_missing_alias (parsed : OExpr) : Except String (List SQLDiagnostic) :=
  let tables := findAllTables parsed
  if tables.length > 1 then
    tables.foldlM (fun acc t =>
      match t with
      | .table name al =>
          if al == "" then
            match name.data with
            | [] => .error "IndexError: string index out of range"
            | c :: _ =>
                .ok (acc ++
                  [({ diagnostic_type := "MISSING_ALIAS",
                      message := "Table \x27" ++ name ++ "\x27 has no alias in multi-table query",
                      severity := "info",
                      suggestion := some ("Add alias: " ++ name ++ " AS " ++ (Char.toLower c).toString) } : SQLDiagnostic)])
          else .ok acc
      | _ => .ok acc) []
  else .ok []

/-- Rule 3, check_order_by_number: an ORDER BY item whose expression is an
integer literal yields one warning (Order items are Ordered wrappers). -/
def check_order_by_number (parsed : OExpr) : List SQLDiagnostic :=
  (findAllOrders parsed).foldl (fun acc o =>
    match o with
    | .order items =>
        items.foldl (fun acc2 it =>
          match it with
          | .ordered (.lit v _ true) =>
              acc2 ++ [{ diagnostic_type := "ORDER_BY_NUMBER",
                         message := "ORDER BY uses column number (" ++ v ++ ") instead of name",
                         severity := "warning",
                         suggestion := some "Use column name for clarity and maintainability" }]
          | _ => acc2) acc
    | _ => acc) []

/-- Rule 4, check_implicit_join: in the first Select, more tables than
explicit joins account for, with a comma in the rendered FROM clause. -/
def check_implicit_join (parsed : OExpr) : List SQLDiagnostic :=
  match findFirstSelect parsed with
  | none => []
  | some sel =>
      match findFirstFrom sel with
      | none => []
      | some fr =>
          let tables := findAllTables sel
          let joins := findAllJoins sel
          if tables.length > 1 && joins.length < tables.length - 1 then
            if strContains fr.sqlText "," then
              [{ diagnostic_type := "IMPLICIT_JOIN",
                 message := "Implicit join (comma-separated FROM) detected",
                 severity := "warning",
                 suggestion := some "Use explicit JOIN syntax for clarity" }]
            else []
          else []

/-- Rule 5, check_where_one_equals_one: the rendered first WHERE clause,
upper-cased, contains a 1=1 pattern. -/
def check_where_one_equals_one (parsed : OExpr) : List SQLDiagnostic :=
  match findFirstWhere parsed with
  | none => []
  | some w =>
      let s := upperStr w.sqlText
      if strContains s "1=1" || strContains s "1 = 1" then
        [{ diagnostic_type := "WHERE_1_EQUALS_1",
           message := "WHERE 1=1 pattern detected",
           severity := "info",
           suggestion := some "Remove if not needed for dynamic SQL generation" }]
      else []

/-- Rule 6, check_distinct_star: a distinct Select with a Star item yields
one warning (the loop breaks at the first Star). -/
def check_distinct_star (parsed : OExpr) : List SQLDiagnostic :=
  (findAllSelectsO parsed).foldl (fun acc s =>
    match s with
    | .selectN items _ _ _ _ _ _ d =>
        if d && items.any isStar then
          acc ++ [{ diagnostic_type := "DISTINCT_STAR",
                    message := "SELECT DISTINCT * detected",
                    severity := "warning",
                    suggestion := some "Use explicit column list with DISTINCT for clarity and performance" }]
        else acc
    | _ => acc) []

/-- Rule 7, check_cartesian_join: a join with neither on nor using whose
kind does not contain CROSS. -/
def check_cartesian_join (parsed : OExpr) : List SQLDiagnostic :=
  (findAllJoins parsed).foldl (fun acc j =>
    match j with
    | .join t onC u k =>
        if onC.isNone && !u then
          if !(strContains (upperStr k) "CROSS") then
            acc ++ [{ diagnostic_type := "CARTESIAN_JOIN",
                      message := "JOIN to \x27" ++ t.nameOf ++ "\x27 without ON clause - potential cartesian product",
                      severity := "warning",
                      suggestion := some "Add ON clause or use CROSS JOIN if intentional" }]
          else acc
        else acc
    | _ => acc) []

/-- Rule 8, check_duplicate_column: per Select, a lower-cased column or
alias name already seen yields one warning per repeat occurrence. -/
def check_duplicate_column (parsed : OExpr) : List SQLDiagnostic :=
  (findAllSelectsO parsed).foldl (fun acc s =>
    match s with
    | .selectN items _ _ _ _ _ _ _ =>
        (items.foldl (fun st e =>
          let colName : Option String :=
            match e with
            | .column n => some (lowerStr n)
            | .aliasN _ a => some (lowerStr a)
            | _ => none
          match colName with
          | none => st
          | some n =>
              if st.1.contains n then
                (st.1, st.2 ++
                  [({ diagnostic_type := "DUPLICATE_COLUMN",
                      message := "Column \x27" ++ n ++ "\x27 appears multiple times in SELECT",
                      severity := "warning",
                      suggestion := some "Remove duplicate or use different alias" } : SQLDiagnostic)])
              else (st.1 ++ [n], st.2)) (([] : List String), acc)).2
    | _ => acc) []

mutual

/-- Longest chain of nested Subquery nodes hanging below the node, counting
the node itself when it is a Subquery: the value count_depth accumulates in
check_nested_subquery (each Subquery child adds one level). -/
def OExpr.subqChain : OExpr → Nat
  | .column _ => 0
  | .star => 0
  | .lit _ _ _ => 0
  | .aliasN e _ => e.subqChain
  | .table _ _ => 0
  | .func _ _ args => OExpr.subqChainList args
  | .orN l r => Nat.max l.subqChain r.subqChain
  | .andN l r => Nat.max l.subqChain r.subqChain
  | .bin _ l r => Nat.max l.subqChain r.subqChain
  | .like t p => Nat.max t.subqChain p.subqChain
  | .whereN c => c.subqChain
  | .order items => OExpr.subqChainList items
  | .ordered i => i.subqChain
  | .fromN es => OExpr.subqChainList es
  | .join t onC _ _ =>
      Nat.max t.subqChain
        (match onC with
         | none => 0
         | some c => c.subqChain)
  | .subq i => 1 + i.subqChain
  | .union l r => Nat.max l.subqChain r.subqChain
  | .selectN items fr js wh _ oc _ _ =>
      Nat.max (OExpr.subqChainList items)
        (Nat.max (match fr with
                  | none => 0
                  | some c => c.subqChain)
          (Nat.max (OExpr.subqChainList js)
            (Nat.max (match wh with
                      | none => 0
                      | some c => c.subqChain)
              (match oc with
               | none => 0
               | some c => c.subqChain))))

/-- Maximum subqChain over a list of children. -/
def OExpr.subqChainList : List OExpr → Nat
  | [] => 0
  | e :: es => Nat.max e.subqChain (OExpr.subqChainList es)

end

/-- The value count_depth(parsed, 0) computes: the deepest Subquery nesting
below the root, the root Subquery itself not counted. -/
def countDepth : OExpr → Nat
  | .subq i => i.subqChain
  | e => e.subqChain

/-- Rule 9, check_nested_subquery: nesting depth at least three yields one
info finding naming the depth. -/
def check_nested_subquery (parsed : OExpr) : List SQLDiagnostic :=
  let depth := countDepth parsed
  if depth ≥ 3 then
    [{ diagnostic_type := "NESTED_SUBQUERY",
       message := "Deeply nested subqueries detected (" ++ toString depth ++ " levels)",
       severity := "info",
       suggestion := some "Consider using CTEs for better readability" }]
  else []

/-- Select-list length of the first Select found on one side of a union, or
zero when there is none, as counted by check_union_column_mismatch. -/
def unionSideCols (side : OExpr) : Nat :=
  match findFirstSelect side with
  | some (.selectN items _ _ _ _ _ _ _) => items.length
  | _ => 0

/-- Rule 10, check_union_column_mismatch: unequal non-zero select-list
counts on the two sides of a Union yield one error. -/
def check_union_column_mismatch (parsed : OExpr) : List SQLDiagnostic :=
  (findAllUnions parsed).foldl (fun acc u =>
    match u with
    | .union l r =>
        let lc := unionSideCols l
        let rc := unionSideCols r
        if lc != rc && lc > 0 && rc > 0 then
          acc ++ [{ diagnostic_type := "UNION_COLUMN_MISMATCH",
                    message := "UNION has mismatched column counts: " ++ toString lc ++ " vs " ++ toString rc,
                    severity := "error",
                    suggestion := some "Ensure both sides of UNION have same number of columns" }]
        else acc
    | _ => acc) []

/-- Rule 11, check_leading_wildcard: a LIKE whose pattern is a string
literal starting with a percent sign. -/
def check_leading_wildcard (parsed : OExpr) : List SQLDiagnostic :=
  (findAllLikes parsed).foldl (fun acc lk =>
    match lk with
    | .like _ (.lit v true _) =>
        if strStartsWith v "%" then
          acc ++ [{ diagnostic_type := "LEADING_WILDCARD",
                    message := "LIKE pattern starts with \x27%\x27 - cannot use index",
                    severity := "info",
                    suggestion := some "Consider full-text search or restructure query if performance critical" }]
        else acc
    | _ => acc) []

/-- Rule 12, check_function_in_where: a function call inside the first
WHERE clause with a Column among its expressions args (one finding per
function, the argument loop breaks at the first Column). -/
def check_function_in_where (parsed : OExpr) : List SQLDiagnostic :=
  match findFirstWhere parsed with
  | none => []
  | some w =>
      (findAllFuncsO w).foldl (fun acc f =>
        match f with
        | .func k _ args =>
            if args.any isColumn then
              acc ++ [{ diagnostic_type := "FUNCTION_IN_WHERE",
                        message := "Function " ++ upperStr k ++ " on column in WHERE - cannot use index",
                        severity := "info",
                        suggestion := some "Consider computed column or functional index" }]
            else acc
        | _ => acc) []

/-- The diagnostic emitted by check_or_in_join. -/
def orInJoinDiag : SQLDiagnostic :=
  { diagnostic_type := "OR_IN_JOIN",
    message := "OR condition in JOIN ON clause",
    severity := "warning",
    suggestion := some "Consider UNION of separate JOINs for better optimization" }

/-- Rule 13, check_or_in_join: per join with an ON clause, one warning when
the clause root is an Or, plus one more when find_all locates any Or in the
clause (the loop breaks after the first, and find_all visits the root too). -/
def check_or_in_join (parsed : OExpr) : List SQLDiagnostic :=
  (findAllJoins parsed).foldl (fun acc j =>
    match j with
    | .join _ (some onC) _ _ =>
        let acc1 := if isOr onC then acc ++ [orInJoinDiag] else acc
        if (findAllOrs onC).isEmpty then acc1 else acc1 ++ [orInJoinDiag]
    | _ => acc) []

/-- Date-literal shape test of check_hardcoded_date: four digits dash two
dash two, or two slash two slash four, or exactly eight digits. -/
def isDateLiteral (s : String) : Bool :=
  let digs := fun (l : List Char) => l.all Char.isDigit
  match s.data with
  | [a,b,c,d,e,f,g,h,i,j] =>
      (digs [a,b,c,d] && e == '-' && digs [f,g] && h == '-' && digs [i,j]) ||
      (digs [a,b] && c == '/' && digs [d,e] && f == '/' && digs [g,h,i,j])
  | [a,b,c,d,e,f,g,h] => digs [a,b,c,d,e,f,g,h]
  | _ => false

/-- Rule 14, check_hardcoded_date: a string literal matching one of the
three date shapes yields one info finding per literal. -/
def check_hardcoded_date (parsed : OExpr) : List SQLDiagnostic :=
  (findAllLiterals parsed).foldl (fun acc l =>
    match l with
    | .lit v true _ =>
        if isDateLiteral v then
          acc ++ [{ diagnostic_type := "HARDCODED_DATE",
                    message := "Hardcoded date literal: \x27" ++ v ++ "\x27",
                    severity := "info",
                    suggestion := some "Consider using parameters or date functions" }]
        else acc
    | _ => acc) []

/-- The aggregate and bare-column flags check_missing_group_by accumulates
over one select-list. -/
def selectAggFlags (items : List OExpr) : Bool × Bool :=
  items.foldl (fun fl e =>
    if containsAgg e then (true, fl.2)
    else
      match e with
      | .column _ => (fl.1, true)
      | .aliasN inner _ =>
          if containsAgg inner then (true, fl.2)
          else
            match inner with
            | .column _ => (fl.1, true)
            | _ => fl
      | _ => fl) (false, false)

/-- Rule 15, check_missing_group_by: a select-list mixing an
aggregate-containing item with a bare-column item, in a Select without a
group arg, yields one error. -/
def check_missing_group_by (parsed : OExpr) : List SQLDiagnostic :=
  (findAllSelectsO parsed).foldl (fun acc s =>
    match s with
    | .selectN items _ _ _ g _ _ _ =>
        let fl := selectAggFlags items
        if fl.1 && fl.2 && !g then
          acc ++ [{ diagnostic_type := "MISSING_GROUP_BY",
                    message := "Aggregate function mixed with non-aggregated columns without GROUP BY",
                    severity := "error",
                    suggestion := some "Add GROUP BY clause or wrap non-aggregates in aggregate functions" }]
        else acc
    | _ => acc) []

/-- The parse-failure diagnostic of analyze_sql. -/
def parseErrorDiag (msg : String) : SQLDiagnostic :=
  { diagnostic_type := "PARSE_ERROR", message := msg, severity := "error" }

/-- Full diagnostics analysis, modelling analyze_sql: a parse failure yields
only the single PARSE_ERROR diagnostic; otherwise the fifteen rules run in
source order and their findings are concatenated.  The rule calls have no
surrounding handler in the source, so an exception raised inside a rule
propagates out of analyze_sql and no findings are returned; the Except
result models that, with check_missing_alias the rule that can raise. -/
def analyze_sql (pr : ParseResult OExpr) : Except String (List SQLDiagnostic) :=
  match pr with
  | .error e => .ok [parseErrorDiag e]
  | .ok parsed =>
      match check_missing_alias parsed with
      | .error err => .error err
      | .ok d2 =>
          .ok (check_select_star parsed ++ d2 ++ check_order_by_number parsed ++
               check_implicit_join parsed ++ check_where_one_equals_one parsed ++
               check_distinct_star parsed ++ check_cartesian_join parsed ++
               check_duplicate_column parsed ++ check_nested_subquery parsed ++
               check_union_column_mismatch parsed ++ check_leading_wildcard parsed ++
               check_function_in_where parsed ++ check_or_in_join parsed ++
               check_hardcoded_date parsed ++ check_missing_group_by parsed)

end Opt

/-! ## Helper lemmas for the lineage extractor -/

/-- The two lists built by collectSourceRefs grow in lock-step from any
accumulator pair of equal lengths. -/
theorem collectSourceRefs_fold_len (am : AliasMap) (cols : List (String × String))
    (a b : List String) (h : a.length = b.length) :
    (cols.foldl (fun acc c => (acc.1 ++ [c.1], acc.2 ++ [resolveTable am c.2])) (a, b)).1.length
      = (cols.foldl (fun acc c => (acc.1 ++ [c.1], acc.2 ++ [resolveTable am c.2])) (a, b)).2.length := by
  induction cols generalizing a b with
  | nil => simpa using h
  | cons c cs ih => exact ih _ _ (by simp [h])

/-- The column and table lists produced by collectSourceRefs have equal
lengths. -/
theorem collectSourceRefs_len (am : AliasMap) (cols : List (String × String)) :
    (collectSourceRefs am cols).1.length = (collectSourceRefs am cols).2.length :=
  collectSourceRefs_fold_len am cols [] [] rfl

/-- Every branch of the classifier produces one of the five mapping-type
strings that _extract_column_lineage can assign. -/
theorem classifyInner_mapping_type (ta : Option String) (inner : LExpr) (am : AliasMap) :
    (classifyInner ta inner am).mapping_type
      ∈ (["direct", "rename", "aggregation", "constant", "derived"] : List String) := by
  cases inner <;> cases ta <;>
    dsimp only [classifyInner] <;>
    (repeat' split) <;> simp

/-- Every branch of the classifier keeps source_columns and source_tables
the same length. -/
theorem classifyInner_src_len (ta : Option String) (inner : LExpr) (am : AliasMap) :
    (classifyInner ta inner am).source_columns.length
      = (classifyInner ta inner am).source_tables.length := by
  cases inner <;> cases ta <;>
    dsimp only [classifyInner] <;>
    (repeat' split) <;>
    first
      | rfl
      | exact collectSourceRefs_len _ _

/-- The classifier record of any select expression carries one of the five
mapping-type strings. -/
theorem lineageRecord_mapping_type (e : LExpr) (am : AliasMap) :
    (lineageRecord e am).mapping_type
      ∈ (["direct", "rename", "aggregation", "constant", "derived"] : List String) := by
  cases e <;> exact classifyInner_mapping_type _ _ _

/-- The classifier record of any select expression has aligned source
lists. -/
theorem lineageRecord_src_len (e : LExpr) (am : AliasMap) :
    (lineageRecord e am).source_columns.length
      = (lineageRecord e am).source_tables.length := by
  cases e <;> exact classifyInner_src_len _ _ _

/-- The select-item loop of extract_lineage appends exactly one record per
item, because the classifier never returns None. -/
theorem foldl_lineage (am : AliasMap) (items : List LExpr) (acc : List ColumnLineage) :
    items.foldl (fun acc e =>
        match extractColumnLineage e am with
        | some r => acc ++ [r]
        | none => acc) acc
      = acc ++ items.map (fun e => lineageRecord e am) := by
  induction items generalizing acc with
  | nil => simp
  | cons e es ih =>
      have hstep : (match extractColumnLineage e am with
                    | some r => acc ++ [r]
                    | none => acc) = acc ++ [lineageRecord e am] := rfl
      rw [List.foldl_cons, hstep, ih]
      simp

/-- On a successful parse with a Select present, extract_lineage is exactly
the per-item classification of that Select, in order. -/
theorem extract_lineage_eq (parsed sel : LExpr) (h : findSelect parsed = some sel) :
    extract_lineage (.ok parsed)
      = (selectItems sel).map (fun e => lineageRecord e (buildAliasMap parsed)) := by
  unfold extract_lineage
  dsimp only []
  rw [h]
  exact foldl_lineage _ _ _

/-! ## Claims about the lineage extractor -/

/-- Claim C1 counterexample: on a Star select-item the classifier assigns
mapping_type "direct", the same string the DIRECT variant uses, not a STAR
variant, refuting the claim that the STAR variant of the mapping-type set
is produced for such items. -/
theorem c1_counterexample :
    (extractColumnLineage LExpr.star []).map ColumnLineage.mapping_type = some "direct"
    ∧ (extractColumnLineage LExpr.star []).map ColumnLineage.mapping_type ≠ some "star" := by
  exact ⟨rfl, by decide⟩

/-- Claim C1 (amended): for every Star select-item the classifier returns
target column "*" and the single source reference all slash star, but with
mapping_type "direct" (the DIRECT string); no select-item is ever assigned
a "star" mapping_type. -/
theorem c1_star_classified_direct :
    (∀ am : AliasMap, extractColumnLineage LExpr.star am
        = some { target_column := "*", target_alias := none, source_columns := ["*"],
                 source_tables := ["all"], mapping_type := "direct", expression := none })
    ∧ (∀ (e : LExpr) (am : AliasMap) (r : ColumnLineage),
        extractColumnLineage e am = some r → r.mapping_type ≠ "star") := by
  constructor
  · intro am
    rfl
  · intro e am r h
    have h2 : r = lineageRecord e am := by
      simpa [extractColumnLineage] using h.symm
    subst h2
    have hm := lineageRecord_mapping_type e am
    simp only [List.mem_cons, List.not_mem_nil, or_false] at hm
    rcases hm with h | h | h | h | h <;> simp [h]

/-- Witness for the amended claim C1 at a concrete bare column. -/
theorem c1_star_classified_direct_witness :
    (lineageRecord (LExpr.column "x" "") []).mapping_type ≠ "star" :=
  c1_star_classified_direct.2 (LExpr.column "x" "") []
    (lineageRecord (LExpr.column "x" "") []) rfl

/-- Claim C2: for every tree that parses successfully and contains a
Select, extract_lineage returns exactly one record per select-item of the
first Select found, the i-th record classifying the i-th item, and every
record carries one of the six closed mapping-type strings. -/
theorem c2_one_record_per_select_item :
    ∀ (parsed sel : LExpr), findSelect parsed = some sel →
      (extract_lineage (.ok parsed)).length = (selectItems sel).length
      ∧ (∀ i : Nat, (extract_lineage (.ok parsed))[i]?
           = ((selectItems sel)[i]?).map (fun e => lineageRecord e (buildAliasMap parsed)))
      ∧ (∀ r ∈ extract_lineage (.ok parsed),
          r.mapping_type
            ∈ (["direct", "rename", "aggregation", "constant", "derived", "star"] : List String)) := by
  intro parsed sel h
  rw [extract_lineage_eq parsed sel h]
  refine ⟨by simp, fun i => by simp, ?_⟩
  intro r hr
  rcases List.mem_map.mp hr with ⟨e, _, rfl⟩
  have hm := lineageRecord_mapping_type e (buildAliasMap parsed)
  simp only [List.mem_cons, List.not_mem_nil, or_false] at hm ⊢
  tauto

/-- Witness for claim C2 at a concrete one-item Select. -/
theorem c2_one_record_per_select_item_witness :
    (extract_lineage (.ok (LExpr.selectNode [LExpr.column "a" ""] []))).length
      = (selectItems (LExpr.selectNode [LExpr.column "a" ""] [])).length :=
  (c2_one_record_per_select_item (LExpr.selectNode [LExpr.column "a" ""] [])
    (LExpr.selectNode [LExpr.column "a" ""] []) rfl).1

/-- Claim C9: every lineage record has source_tables and source_columns of
the same length, in every branch of the classifier. -/
theorem c9_source_lists_aligned :
    ∀ (e : LExpr) (am : AliasMap) (r : ColumnLineage),
      extractColumnLineage e am = some r →
      r.source_columns.length = r.source_tables.length := by
  intro e am r h
  have h2 : r = lineageRecord e am := by
    simpa [extractColumnLineage] using h.symm
  subst h2
  exact lineageRecord_src_len e am

/-- Witness for claim C9 at a concrete aggregation item. -/
theorem c9_source_lists_aligned_witness :
    (lineageRecord (LExpr.agg AggKind.sum [LExpr.column "amount" "o"]) [("o", "orders")]).source_columns.length
      = (lineageRecord (LExpr.agg AggKind.sum [LExpr.column "amount" "o"]) [("o", "orders")]).source_tables.length :=
  c9_source_lists_aligned (LExpr.agg AggKind.sum [LExpr.column "amount" "o"]) [("o", "orders")]
    (lineageRecord (LExpr.agg AggKind.sum [LExpr.column "amount" "o"]) [("o", "orders")]) rfl

/-- Claim C3: on a parse failure the three analyses perform no work:
lineage extraction returns the empty list, and the determinism analysis
and the diagnostics analysis each return exactly one PARSE_ERROR result of
severity error carrying the parser message verbatim. -/
theorem c3_parse_error_behavior (msg : String) :
    extract_lineage (.error msg) = []
    ∧ check_determinism (.error msg)
        = [{ issue_type := "PARSE_ERROR", severity := "error", message := msg,
             location := "SQL", suggestion := "Fix syntax error",
             tie_breaker_columns := [], dq_check_sql := none }]
    ∧ Opt.analyze_sql (.error msg)
        = .ok [{ diagnostic_type := "PARSE_ERROR", message := msg, severity := "error",
                 line_number := none, suggestion := none }] := by
  exact ⟨rfl, rfl, rfl⟩

/-! ## Helper lemmas for the determinism checker -/

/-- When the tree contains exactly one Window node, the window pass reduces
to the issues of that window. -/
theorem check_window_single (t w : DExpr) (h : findAllWindows t = [w]) :
    check_window_functions t = windowIssues w := by
  unfold check_window_functions
  rw [h]
  simp

/-- The loop body of the LIMIT pass appends the fixed issue exactly when
the node is a Select with a limit and no order. -/
theorem limitStep_eq (acc : List DeterminismIssue) (s : DExpr) :
    limitStep acc s = if limitSelPred s then acc ++ [limitNoOrderIssue] else acc := by
  cases s <;> rfl

/-- The LIMIT pass emits the fixed issue once per Select with a limit and
no order, in traversal order, from any accumulator. -/
theorem limit_fold (ss : List DExpr) (acc : List DeterminismIssue) :
    ss.foldl limitStep acc
      = acc ++ (ss.filter limitSelPred).map (fun _ => limitNoOrderIssue) := by
  induction ss generalizing acc with
  | nil => simp
  | cons s ss ih =>
      rw [List.foldl_cons, limitStep_eq, List.filter_cons]
      by_cases hb : limitSelPred s = true
      · rw [if_pos hb, if_pos hb, List.map_cons, ih]
        simp
      · rw [if_neg hb, if_neg hb, ih]

/-- The issue list produced by windowIssues for a set-member function with
no window ORDER BY, as a function of the extracted function name. -/
theorem windowIssues_no_order (f : DExpr) (pb : List DExpr) (fn : String)
    (h : getFunctionName f = fn)
    (hall : ALL_ORDERED_WINDOW_FUNCTIONS.contains fn = true) :
    windowIssues (DExpr.window f pb none) =
      [{ issue_type :=
           if NAVIGATION_FUNCTIONS.contains fn then
             (if fn == "FIRST_VALUE" || fn == "LAST_VALUE" then "FIRST_LAST_NO_ORDER"
              else "LAG_LEAD_NO_ORDER")
           else "WINDOW_NO_ORDER",
         severity := "error",
         message := fn ++ "() without ORDER BY - results are non-deterministic",
         location := fn ++ " window function",
         suggestion := "Add ORDER BY clause with unique columns to " ++ fn ++ "()",
         tie_breaker_columns := ["primary_key", "created_at", "row_id"],
         dq_check_sql := some (generateDqCheck fn pb) }] := by
  simp only [windowIssues, h, hall, Bool.not_true, Bool.false_eq_true, if_false]

/-- The issue list produced by windowIssues for a ranking function with a
window ORDER BY present, as a function of the extracted function name. -/
theorem windowIssues_with_order (f : DExpr) (pb obItems : List DExpr) (fn : String)
    (h : getFunctionName f = fn)
    (hall : ALL_ORDERED_WINDOW_FUNCTIONS.contains fn = true)
    (hrank : RANKING_FUNCTIONS.contains fn = true) :
    windowIssues (DExpr.window f pb (some obItems)) =
      [{ issue_type := "WINDOW_NON_UNIQUE_ORDER",
         severity := "warning",
         message := fn ++ "() ORDER BY (" ++
           String.intercalate ", " (extractOrderColumns obItems) ++
           ") may not be unique within partition",
         location := fn ++ " window function",
         suggestion := "Ensure ORDER BY includes a unique column (PK or tie-breaker)",
         tie_breaker_columns := ["primary_key", "_source_row_id", "created_at"],
         dq_check_sql := some (generateUniquenessCheck fn
           (extractPartitionColumns pb) (extractOrderColumns obItems)) }] := by
  simp only [windowIssues, h, hall, hrank, Bool.not_true, Bool.false_eq_true, if_false,
    if_true]

/-! ## Claims about the determinism checker -/

/-- Claim C5 counterexample: in this tree the only Select carrying a LIMIT
and no ORDER BY sits inside a Subquery below the top-level Select (which
itself has no LIMIT), yet check_limit_without_order still emits the
LIMIT_NO_ORDER error, refuting the claim that a Select nested inside a
subquery does not trigger it. -/
theorem c5_counterexample :
    check_limit_without_order
      (DExpr.selectNode
        [DExpr.subquery (DExpr.selectNode [DExpr.star] true false false)]
        false false false)
      = [limitNoOrderIssue]
    ∧ limitNoOrderIssue.issue_type = "LIMIT_NO_ORDER" := by
  exact ⟨rfl, rfl⟩

/-- Claim C5 (amended): a LIMIT_NO_ORDER error is emitted once for every
Select found anywhere in the tree, nested subquery Selects included, that
has a LIMIT and no ORDER BY; every emitted issue is the fixed error record
with dq_check_sql absent; the one-Select tree of SELECT * FROM orders
LIMIT 100 yields exactly one such error. -/
theorem c5_limit_no_order :
    (∀ t : DExpr, (check_limit_without_order t).length
        = ((findAllSelects t).filter limitSelPred).length)
    ∧ (∀ (t : DExpr) (i : DeterminismIssue), i ∈ check_limit_without_order t →
        i = limitNoOrderIssue ∧ i.issue_type = "LIMIT_NO_ORDER"
          ∧ i.severity = "error" ∧ i.dq_check_sql = none)
    ∧ check_limit_without_order
        (DExpr.selectNode [DExpr.star, DExpr.tableNode "orders"] true false false)
      = [limitNoOrderIssue] := by
  refine ⟨?_, ?_, rfl⟩
  · intro t
    unfold check_limit_without_order
    rw [limit_fold]
    simp
  · intro t i hi
    unfold check_limit_without_order at hi
    rw [limit_fold] at hi
    simp only [List.nil_append, List.mem_map] at hi
    rcases hi with ⟨s, _, rfl⟩
    exact ⟨rfl, rfl, rfl, rfl⟩

/-- Witness for the amended claim C5 at a concrete one-Select tree. -/
theorem c5_limit_no_order_witness :
    limitNoOrderIssue = limitNoOrderIssue
    ∧ limitNoOrderIssue.issue_type = "LIMIT_NO_ORDER"
    ∧ limitNoOrderIssue.severity = "error"
    ∧ limitNoOrderIssue.dq_check_sql = none :=
  c5_limit_no_order.2.1 (DExpr.selectNode [DExpr.star] true false false)
    limitNoOrderIssue (by decide)

/-- Claim C6: a Window whose function is in the ranking or navigation set
and whose spec has no ORDER BY yields exactly one error issue with
non-empty tie_breaker_columns, typed WINDOW_NO_ORDER for ranking
functions, FIRST_LAST_NO_ORDER for FIRST_VALUE and LAST_VALUE, and
LAG_LEAD_NO_ORDER for LAG, LEAD and NTH_VALUE. -/
theorem c6_window_no_order :
    ∀ (t f : DExpr) (pb : List DExpr),
      findAllWindows t = [DExpr.window f pb none] →
      getFunctionName f ∈ ALL_ORDERED_WINDOW_FUNCTIONS →
      ∃ i, check_window_functions t = [i]
        ∧ i.severity = "error"
        ∧ i.tie_breaker_columns ≠ []
        ∧ (getFunctionName f ∈ RANKING_FUNCTIONS → i.issue_type = "WINDOW_NO_ORDER")
        ∧ (getFunctionName f ∈ (["FIRST_VALUE", "LAST_VALUE"] : List String) →
            i.issue_type = "FIRST_LAST_NO_ORDER")
        ∧ (getFunctionName f ∈ (["LAG", "LEAD", "NTH_VALUE"] : List String) →
            i.issue_type = "LAG_LEAD_NO_ORDER") := by
  intro t f pb ht hmem
  rw [check_window_single t _ ht]
  simp only [ALL_ORDERED_WINDOW_FUNCTIONS, RANKING_FUNCTIONS, NAVIGATION_FUNCTIONS,
    List.append_eq, List.cons_append, List.nil_append, List.mem_cons,
    List.not_mem_nil, or_false] at hmem
  rcases hmem with h | h | h | h | h | h | h | h | h <;>
    rw [windowIssues_no_order f pb _ h (by decide), h] <;>
    refine ⟨_, rfl, rfl, by simp, ?_, ?_, ?_⟩ <;>
    (intro hx
     first
       | rfl
       | exact absurd hx (by decide))

/-- Witness for claim C6 at the ROW_NUMBER over PARTITION BY region
example. -/
theorem c6_window_no_order_witness :
    ∃ i, check_window_functions
        (DExpr.window (DExpr.func "ROW_NUMBER" false []) [DExpr.column "region"] none) = [i]
      ∧ i.severity = "error"
      ∧ i.tie_breaker_columns ≠ []
      ∧ (getFunctionName (DExpr.func "ROW_NUMBER" false []) ∈ RANKING_FUNCTIONS →
          i.issue_type = "WINDOW_NO_ORDER")
      ∧ (getFunctionName (DExpr.func "ROW_NUMBER" false []) ∈ (["FIRST_VALUE", "LAST_VALUE"] : List String) →
          i.issue_type = "FIRST_LAST_NO_ORDER")
      ∧ (getFunctionName (DExpr.func "ROW_NUMBER" false []) ∈ (["LAG", "LEAD", "NTH_VALUE"] : List String) →
          i.issue_type = "LAG_LEAD_NO_ORDER") :=
  c6_window_no_order
    (DExpr.window (DExpr.func "ROW_NUMBER" false []) [DExpr.column "region"] none)
    (DExpr.func "ROW_NUMBER" false []) [DExpr.column "region"] rfl (by decide)

/-- Claim C7: a Window whose function is a ranking function and whose spec
contains an ORDER BY always yields exactly one warning-severity
WINDOW_NON_UNIQUE_ORDER issue with a dq_check_sql present, whatever the
order expressions are. -/
theorem c7_ranking_order_warning :
    ∀ (t f : DExpr) (pb obItems : List DExpr),
      findAllWindows t = [DExpr.window f pb (some obItems)] →
      getFunctionName f ∈ RANKING_FUNCTIONS →
      ∃ i, check_window_functions t = [i]
        ∧ i.issue_type = "WINDOW_NON_UNIQUE_ORDER"
        ∧ i.severity = "warning"
        ∧ i.dq_check_sql ≠ none := by
  intro t f pb obItems ht hmem
  rw [check_window_single t _ ht]
  simp only [RANKING_FUNCTIONS, List.mem_cons, List.not_mem_nil, or_false] at hmem
  rcases hmem with h | h | h | h <;>
    rw [windowIssues_with_order f pb obItems _ h (by decide) (by decide)] <;>
    exact ⟨_, rfl, rfl, rfl, by simp⟩

/-- Witness for claim C7 at ROW_NUMBER with ORDER BY created_date. -/
theorem c7_ranking_order_warning_witness :
    ∃ i, check_window_functions
        (DExpr.window (DExpr.func "ROW_NUMBER" false []) [DExpr.column "region"]
          (some [DExpr.ordered (DExpr.column "created_date")])) = [i]
      ∧ i.issue_type = "WINDOW_NON_UNIQUE_ORDER"
      ∧ i.severity = "warning"
      ∧ i.dq_check_sql ≠ none :=
  c7_ranking_order_warning
    (DExpr.window (DExpr.func "ROW_NUMBER" false []) [DExpr.column "region"]
      (some [DExpr.ordered (DExpr.column "created_date")]))
    (DExpr.func "ROW_NUMBER" false []) [DExpr.column "region"]
    [DExpr.ordered (DExpr.column "created_date")] rfl (by decide)

/-! ## Helper lemmas for the tie-breaker suggester -/

/-- Elements produced by one pattern pass either were already suggested or
are matching candidates. -/
theorem suggest_inner_mem (p : TBPattern) (cols : List String) (sugg : List String)
    (c : String)
    (h : c ∈ cols.foldl (fun sugg col =>
        if patMatch p col && !(sugg.contains col) then sugg ++ [col] else sugg) sugg) :
    c ∈ sugg ∨ (c ∈ cols ∧ patMatch p c = true) := by
  induction cols generalizing sugg with
  | nil => exact Or.inl h
  | cons col cs ih =>
      rw [List.foldl_cons] at h
      rcases ih _ h with h1 | ⟨hc, hm⟩
      · by_cases hb : (patMatch p col && !(sugg.contains col)) = true
        · rw [if_pos hb] at h1
          rcases List.mem_append.mp h1 with h2 | h2
          · exact Or.inl h2
          · have hcol : c = col := List.mem_singleton.mp h2
            subst hcol
            have hb2 : patMatch p c = true ∧ (!(sugg.contains c)) = true := by
              simpa [Bool.and_eq_true] using hb
            exact Or.inr ⟨List.mem_cons_self _ _, hb2.1⟩
        · rw [if_neg hb] at h1
          exact Or.inl h1
      · exact Or.inr ⟨List.mem_cons_of_mem _ hc, hm⟩

/-- Elements produced by the pattern loop either were already suggested or
are candidates matching one of the iterated patterns. -/
theorem suggest_outer_mem (pats : List TBPattern) (cols : List String)
    (acc : List String) (c : String)
    (h : c ∈ pats.foldl (fun suggestions p =>
        cols.foldl (fun sugg col =>
          if patMatch p col && !(sugg.contains col) then sugg ++ [col] else sugg)
          suggestions) acc) :
    c ∈ acc ∨ (c ∈ cols ∧ ∃ p ∈ pats, patMatch p c = true) := by
  induction pats generalizing acc with
  | nil => exact Or.inl h
  | cons p ps ih =>
      rw [List.foldl_cons] at h
      rcases ih _ h with h1 | ⟨hc, q, hq, hm⟩
      · rcases suggest_inner_mem p cols acc c h1 with h2 | ⟨hc, hm⟩
        · exact Or.inl h2
        · exact Or.inr ⟨hc, p, List.mem_cons_self _ _, hm⟩
      · exact Or.inr ⟨hc, q, List.mem_cons_of_mem _ hq, hm⟩

/-- One pattern pass preserves the no-duplicates invariant, thanks to the
already-selected test. -/
theorem suggest_inner_nodup (p : TBPattern) (cols : List String) (sugg : List String)
    (h : sugg.Nodup) :
    (cols.foldl (fun sugg col =>
        if patMatch p col && !(sugg.contains col) then sugg ++ [col] else sugg) sugg).Nodup := by
  induction cols generalizing sugg with
  | nil => exact h
  | cons col cs ih =>
      rw [List.foldl_cons]
      by_cases hb : (patMatch p col && !(sugg.contains col)) = true
      · rw [if_pos hb]
        refine ih _ ?_
        have hnc : col ∉ sugg := by
          have hb2 : patMatch p col = true ∧ (!(sugg.contains col)) = true := by
            simpa [Bool.and_eq_true] using hb
          simpa [List.elem_iff] using hb2.2
        simp [List.nodup_append, h, hnc]
      · rw [if_neg hb]
        exact ih _ h

/-- The pattern loop preserves the no-duplicates invariant. -/
theorem suggest_outer_nodup (pats : List TBPattern) (cols : List String)
    (acc : List String) (h : acc.Nodup) :
    (pats.foldl (fun suggestions p =>
        cols.foldl (fun sugg col =>
          if patMatch p col && !(sugg.contains col) then sugg ++ [col] else sugg)
          suggestions) acc).Nodup := by
  induction pats generalizing acc with
  | nil => exact h
  | cons p ps ih =>
      rw [List.foldl_cons]
      exact ih _ (suggest_inner_nodup p cols acc h)

/-! ## Claim about the tie-breaker suggester -/

/-- Claim C8: every suggested tie-breaker is a candidate matching at least
one of the fixed patterns (candidates matching no pattern are excluded),
no candidate is suggested twice, and on the example candidate list the
result is exactly created_at then order_id, in pattern-priority order
rather than input order. -/
theorem c8_suggest_tie_breakers :
    (∀ (cols : List String) (c : String), c ∈ suggest_tie_breakers cols →
        c ∈ cols ∧ ∃ p ∈ TIE_BREAKER_PATTERNS, patMatch p c = true)
    ∧ (∀ cols : List String, (suggest_tie_breakers cols).Nodup)
    ∧ suggest_tie_breakers ["customer_name", "order_id", "created_at"]
        = ["created_at", "order_id"] := by
  refine ⟨?_, ?_, rfl⟩
  · intro cols c h
    rcases suggest_outer_mem TIE_BREAKER_PATTERNS cols [] c h with h1 | h2
    · exact absurd h1 (List.not_mem_nil c)
    · exact h2
  · intro cols
    exact suggest_outer_nodup TIE_BREAKER_PATTERNS cols [] List.nodup_nil

/-- Witness for claim C8 at the example candidate list. -/
theorem c8_suggest_tie_breakers_witness :
    "created_at" ∈ (["customer_name", "order_id", "created_at"] : List String)
    ∧ ∃ p ∈ TIE_BREAKER_PATTERNS, patMatch p "created_at" = true :=
  c8_suggest_tie_breakers.1 ["customer_name", "order_id", "created_at"]
    "created_at" (by decide)

/-! ## Claims about the optimizer rules -/

/-- Claim C4 counterexample: on this tree (two tables in the FROM clause,
one with an empty name and no alias, and a Star item) the
check_select_star rule has a finding, but check_missing_alias faults while
building its suggestion text, and analyze_sql — which wraps no handler
around the rules — aborts with that fault and returns no findings from any
rule, refuting the claim that a faulting rule yields zero findings for
that rule only and never aborts the batch. -/
theorem c4_counterexample :
    Opt.analyze_sql (.ok (Opt.OExpr.selectN [Opt.OExpr.star]
        (some (Opt.OExpr.fromN [Opt.OExpr.table "" "", Opt.OExpr.table "orders" ""]))
        [] none false none false false))
      = .error "IndexError: string index out of range"
    ∧ Opt.check_select_star (Opt.OExpr.selectN [Opt.OExpr.star]
        (some (Opt.OExpr.fromN [Opt.OExpr.table "" "", Opt.OExpr.table "orders" ""]))
        [] none false none false false) ≠ [] := by
  exact ⟨rfl, by decide⟩

/-- Claim C4 (amended): an internal fault inside a diagnostic rule is not
isolated: analyze_sql runs the rules with no per-rule handler, so a fault
raised by check_missing_alias propagates out of analyze_sql and the
analysis returns no findings from any rule. -/
theorem c4_rule_fault_aborts :
    ∀ (parsed : Opt.OExpr) (err : String),
      Opt.check_missing_alias parsed = .error err →
      Opt.analyze_sql (.ok parsed) = .error err := by
  intro parsed err h
  simp only [Opt.analyze_sql, h]

/-- Witness for the amended claim C4 at a concrete two-table tree with an
empty table name. -/
theorem c4_rule_fault_aborts_witness :
    Opt.analyze_sql (.ok (Opt.OExpr.selectN []
        (some (Opt.OExpr.fromN [Opt.OExpr.table "" "", Opt.OExpr.table "b" ""]))
        [] none false none false false))
      = .error "IndexError: string index out of range" :=
  c4_rule_fault_aborts
    (Opt.OExpr.selectN []
      (some (Opt.OExpr.fromN [Opt.OExpr.table "" "", Opt.OExpr.table "b" ""]))
      [] none false none false false)
    "IndexError: string index out of range" rfl

/-- Claim C10: per Join whose ON clause root is itself an Or node,
check_or_in_join emits exactly two OR_IN_JOIN diagnostics (one from the
root test and one from the contains-Or scan, which also visits the root),
while a Join whose ON clause merely contains an Or below the root yields
exactly one. -/
theorem c10_or_in_join_counts :
    ∀ (t tj onC : Opt.OExpr) (u : Bool) (k : String),
      Opt.findAllJoins t = [Opt.OExpr.join tj (some onC) u k] →
      (Opt.isOr onC = true →
        Opt.check_or_in_join t = [Opt.orInJoinDiag, Opt.orInJoinDiag])
      ∧ (Opt.isOr onC = false → Opt.findAllOrs onC ≠ [] →
        Opt.check_or_in_join t = [Opt.orInJoinDiag]) := by
  intro t tj onC u k h
  unfold Opt.check_or_in_join
  rw [h]
  constructor
  · intro hor
    have hne : (Opt.findAllOrs onC).isEmpty = false := by
      have hmem : onC ∈ Opt.findAllOrs onC := by
        cases onC <;> simp_all [Opt.findAllOrs, Opt.OExpr.allNodes, Opt.isOr]
      rcases hh : Opt.findAllOrs onC with _ | ⟨x, xs⟩
      · rw [hh] at hmem
        simp at hmem
      · rfl
    simp [hor, hne]
  · intro hor hne
    have hne2 : (Opt.findAllOrs onC).isEmpty = false := by
      rcases hh : Opt.findAllOrs onC with _ | ⟨x, xs⟩
      · exact absurd hh hne
      · rfl
    simp [hor, hne2]

/-- Witness for claim C10 at a concrete Join whose ON clause is an Or. -/
theorem c10_or_in_join_counts_witness :
    Opt.check_or_in_join (Opt.OExpr.join (Opt.OExpr.table "a" "")
        (some (Opt.OExpr.orN (Opt.OExpr.column "p") (Opt.OExpr.column "q"))) false "")
      = [Opt.orInJoinDiag, Opt.orInJoinDiag] :=
  (c10_or_in_join_counts
    (Opt.OExpr.join (Opt.OExpr.table "a" "")
      (some (Opt.OExpr.orN (Opt.OExpr.column "p") (Opt.OExpr.column "q"))) false "")
    (Opt.OExpr.table "a" "")
    (Opt.OExpr.orN (Opt.OExpr.column "p") (Opt.OExpr.column "q")) false "" rfl).1 rfl

end MddeLite
